import Mathlib

/-!
Verification of the query/analytics pipeline of backend/simple_app.py.

The program is a FastAPI app with three endpoints; the two the claims are
about are modelled here as pure Lean functions:

* POST /api/query  (query_documents): checks the ANTHROPIC_API_KEY
  environment variable, resolves a session id, reads conversation history
  from a module-level sessions dict, builds a message list from the last 3
  exchanges plus the current query, calls the Anthropic generation client,
  appends the new exchange to the sessions dict, and returns the answer with
  a fixed placeholder source list.
* GET /api/courses (get_course_stats): returns a constant CourseStats value.

The generation client call is modelled as a function parameter returning
Except (failure mirrors a raised exception, caught by the endpoint's
except-clause and re-raised as HTTP 500 with the exception text); the
environment variable as an Option String (os.getenv returns None when the
variable is unset, and Python truthiness treats None and the empty string
alike); the sessions dict as an association list from session id to the
ordered exchange list.
-/

/-- One stored exchange: the dict with keys "user" and "assistant" appended
at simple_app.py lines 99-102. -/
structure Exchange where
  user : String
  assistant : String
deriving DecidableEq

/-- Pydantic request model QueryRequest: a required query string and an
optional session_id string. -/
structure QueryRequest where
  query : String
  session_id : Option String
deriving DecidableEq

/-- Pydantic response model QueryResponse. -/
structure QueryResponse where
  answer : String
  sources : List String
  session_id : String
deriving DecidableEq

/-- Pydantic response model CourseStats. -/
structure CourseStats where
  total_courses : Nat
  course_titles : List String
deriving DecidableEq

/-- One message of the Anthropic messages list. -/
structure Message where
  role : String
  content : String
deriving DecidableEq

/-- The module-level sessions dict, as an association list keyed by session
id. -/
abbrev Sessions : Type := List (String × List Exchange)

/-- Dict read with default: sessions.get(session_id, []). -/
def Sessions.getD : Sessions → String → List Exchange
  | [], _ => []
  | (k, v) :: rest, sid => if k = sid then v else Sessions.getD rest sid

/-- Dict membership test: session_id in sessions. -/
def Sessions.hasKey : Sessions → String → Bool
  | [], _ => false
  | (k, _) :: rest, sid => if k = sid then true else Sessions.hasKey rest sid

/-- Dict write: sessions[session_id] = h (replaces an existing binding). -/
def Sessions.setKey : Sessions → String → List Exchange → Sessions
  | [], sid, h => [(sid, h)]
  | (k, v) :: rest, sid, h =>
      if k = sid then (sid, h) :: rest else (k, v) :: Sessions.setKey rest sid h

/-- Lines 96-102 of simple_app.py: if session_id not in sessions, create an
empty list for it, then append the new exchange to sessions[session_id]. -/
def addExchange (s : Sessions) (sid : String) (ex : Exchange) : Sessions :=
  let s1 := if Sessions.hasKey s sid then s else Sessions.setKey s sid []
  Sessions.setKey s1 sid (Sessions.getD s1 sid ++ [ex])

/-- Line 58: not os.getenv("ANTHROPIC_API_KEY") is true when the variable is
unset (None) or set to the empty string. -/
def apiKeyMissing : Option String → Bool
  | none => true
  | some k => if k = "" then true else false

/-- Detail string of the HTTPException raised at lines 59-62. (The outer
except-clause re-raises it as HTTPException(500, str(e)), which prefixes the
text but keeps the 500 status; the claims depend only on the status.) -/
def apiKeyErrorDetail : String :=
  "Anthropic API key not configured. Please add ANTHROPIC_API_KEY to your .env file."

/-- Line 65: session_id = request.session_id or "default". Python or uses
truthiness, so both a missing and an empty-string session_id resolve to
"default". -/
def resolveSessionId : Option String → String
  | none => "default"
  | some sid => if sid = "" then "default" else sid

/-- The system prompt string of lines 71-74 (whitespace condensed; its exact
text is immaterial to the claims). -/
def systemPrompt : String :=
  "You are a helpful AI assistant. You can answer questions about various topics.\nSince the full RAG system is not yet set up, you should use your general knowledge to provide helpful responses.\nNote: The vector search functionality is not available yet, so you are responding based on your training data."

/-- Lines 79-80: one history exchange becomes one user message followed by
one assistant message. -/
def exchangePair (ex : Exchange) : List Message :=
  [⟨"user", ex.user⟩, ⟨"assistant", ex.assistant⟩]

/-- Lines 76-83: the message list sent to the model is built from
history[-3:] (the last three exchanges, or all of them when fewer), each as a
user/assistant pair, followed by the current query as a user message. -/
def buildMessages (history : List Exchange) (query : String) : List Message :=
  ((history.drop (history.length - 3)).flatMap exchangePair) ++ [⟨"user", query⟩]

/-- Line 106: the sources list returned on every successful query is this
fixed singleton. -/
def generalKnowledgeSource : String :=
  "General AI Knowledge (RAG system not fully initialized)"

/-- A chunk record as the spec's data model describes it (course_title and
lesson_title are what source labels would be derived from). -/
structure Chunk where
  content : String
  course_title : String
  lesson_title : String
deriving DecidableEq

/-- The query path of simple_app.py performs no vector retrieval at all
(there is no vector store in the file), so the sequence of chunks retrieved
for any request is empty. -/
def retrieved_chunks : List Chunk := []

/-- The display label the spec says a retrieved chunk maps to. -/
def chunkLabel (c : Chunk) : String := c.course_title ++ " - " ++ c.lesson_title

/-- Result of one POST /api/query request: the HTTP outcome (error carries
the status code and detail string), the sessions dict after the request, and
how many times the generation client was called during the request. -/
structure QueryOutcome where
  result : Except (Nat × String) QueryResponse
  sessions : Sessions
  genCalls : Nat

/-- Lines 54-111 of simple_app.py: the query_documents endpoint. gen is the
anthropic_client.messages.create call (given the system prompt and message
list it returns the answer text, or fails like a raised exception, which the
except-clause turns into HTTP 500 with the exception text). -/
def query_documents (apiKey : Option String)
    (gen : String → List Message → Except String String)
    (sessions : Sessions) (request : QueryRequest) : QueryOutcome :=
  if apiKeyMissing apiKey then
    { result := .error (500, apiKeyErrorDetail), sessions := sessions, genCalls := 0 }
  else
    let session_id := resolveSessionId request.session_id
    let history := Sessions.getD sessions session_id
    let messages := buildMessages history request.query
    match gen systemPrompt messages with
    | .error e =>
        { result := .error (500, e), sessions := sessions, genCalls := 1 }
    | .ok answer =>
        { result := .ok { answer := answer,
                          sources := [generalKnowledgeSource],
                          session_id := session_id },
          sessions := addExchange sessions session_id { user := request.query, assistant := answer },
          genCalls := 1 }

/-- Line 118's placeholder title string. -/
def courseStatsPlaceholder : String :=
  "Full RAG system not initialized - install ChromaDB and sentence-transformers to enable course search"

/-- Lines 113-119 of simple_app.py: the /api/courses endpoint returns this
constant. -/
def get_course_stats : CourseStats :=
  { total_courses := 0, course_titles := [courseStatsPlaceholder] }

/-- The message list as claim C3 words it: every currently retained exchange
becomes one user/assistant pair in original order, followed by the current
query. -/
def claimMessages (history : List Exchange) (query : String) : List Message :=
  (history.flatMap exchangePair) ++ [⟨"user", query⟩]

/-! ### Helper lemmas about the sessions dict -/

theorem Sessions.getD_setKey_self (s : Sessions) (sid : String) (h : List Exchange) :
    Sessions.getD (Sessions.setKey s sid h) sid = h := by
  induction s with
  | nil => simp [Sessions.setKey, Sessions.getD]
  | cons kv rest ih =>
    obtain ⟨k, v⟩ := kv
    by_cases hk : k = sid
    · simp [Sessions.setKey, Sessions.getD, hk]
    · simp [Sessions.setKey, Sessions.getD, hk, ih]

theorem Sessions.getD_eq_nil_of_not_hasKey (s : Sessions) (sid : String)
    (h : Sessions.hasKey s sid = false) : Sessions.getD s sid = [] := by
  induction s with
  | nil => rfl
  | cons kv rest ih =>
    obtain ⟨k, v⟩ := kv
    by_cases hk : k = sid
    · simp [Sessions.hasKey, hk] at h
    · simp [Sessions.hasKey, hk] at h
      simp [Sessions.getD, hk, ih h]

theorem addExchange_getD (s : Sessions) (sid : String) (ex : Exchange) :
    Sessions.getD (addExchange s sid ex) sid = Sessions.getD s sid ++ [ex] := by
  unfold addExchange
  cases hb : Sessions.hasKey s sid with
  | true => simp [hb, Sessions.getD_setKey_self]
  | false =>
    simp [hb, Sessions.getD_setKey_self,
      Sessions.getD_eq_nil_of_not_hasKey s sid hb]

/-! ### Claim C1 -/

/-- C1 as stated is false: the sessions dict of simple_app.py performs no
eviction on append, so with the spec's example bound of 5, appending 7
exchanges leaves a stored history of length 7, not the most recent 5. -/
theorem C1_counterexample :
    (Sessions.getD
      (((List.range 7).map (fun i => Exchange.mk (toString (i + 1)) "a")).foldl
        (fun t e => addExchange t "s" e) ([] : Sessions)) "s").length = 7 ∧
    Sessions.getD
      (((List.range 7).map (fun i => Exchange.mk (toString (i + 1)) "a")).foldl
        (fun t e => addExchange t "s" e) ([] : Sessions)) "s"
      ≠ (((List.range 7).map (fun i => Exchange.mk (toString (i + 1)) "a")).drop 2) := by
  exact ⟨rfl, by decide⟩

/-- C1 amended: the session store never evicts. For every session id and
every sequence of appended exchanges, the stored history after the appends is
the prior history followed by all appended exchanges, oldest first, with no
cap applied (only the prompt builder later trims to the last 3). -/
theorem C1_amended (s : Sessions) (sid : String) (exs : List Exchange) :
    Sessions.getD (exs.foldl (fun t e => addExchange t sid e) s) sid
      = Sessions.getD s sid ++ exs := by
  induction exs generalizing s with
  | nil => simp
  | cons e rest ih => simp [List.foldl_cons, ih, addExchange_getD]

/-! ### Claim C7 -/

/-- C7 as stated is false: the analytics endpoint returns a course count of 0
together with a one-element title list, so the count does not equal the
number of returned titles. -/
theorem C7_counterexample :
    get_course_stats.total_courses = 0 ∧
    get_course_stats.course_titles.length = 1 ∧
    get_course_stats.total_courses ≠ get_course_stats.course_titles.length := by
  exact ⟨rfl, rfl, by decide⟩

/-- C7 amended: the corpus-analytics operation returns the constant response
with total course count 0 and a singleton list holding a placeholder message
(not the title of any stored course); the count differs from the length of
the title list. -/
theorem C7_amended :
    get_course_stats = { total_courses := 0, course_titles := [courseStatsPlaceholder] } ∧
    get_course_stats.total_courses ≠ get_course_stats.course_titles.length := by
  exact ⟨rfl, by decide⟩

/-! ### Claim C10 -/

/-- C10: when the ANTHROPIC_API_KEY environment variable is unset, the query
endpoint returns HTTP 500 with the generation client never invoked and the
sessions dict unchanged, for every request and every possible client. -/
theorem C10_missing_api_key (gen : String → List Message → Except String String)
    (sessions : Sessions) (request : QueryRequest) :
    query_documents none gen sessions request
      = { result := .error (500, apiKeyErrorDetail),
          sessions := sessions, genCalls := 0 } := rfl

/-! ### Claim C2 -/

/-- C2 as stated is false: with no chunks retrieved (the pipeline performs no
retrieval at all), a successful query does return a non-error answer and does
invoke generation, but the returned source list is the fixed placeholder
singleton, not the empty list. -/
theorem C2_counterexample :
    retrieved_chunks = [] ∧
    (query_documents (some "k") (fun _ _ => .ok "ans") [] ⟨"hello", none⟩).result
      = .ok { answer := "ans", sources := [generalKnowledgeSource],
              session_id := "default" } ∧
    (query_documents (some "k") (fun _ _ => .ok "ans") [] ⟨"hello", none⟩).genCalls = 1 ∧
    [generalKnowledgeSource] ≠ ([] : List String) := by
  exact ⟨rfl, rfl, rfl, by decide⟩

/-- C2 amended: every query runs with zero retrieved chunks; when the API key
is set and the generation client succeeds, the endpoint returns a non-error
answer, invokes generation exactly once, and returns the fixed placeholder
source list rather than an empty one. -/
theorem C2_amended (k : String) (gen : String → List Message → Except String String)
    (sessions : Sessions) (request : QueryRequest) (ans : String)
    (hk : k ≠ "")
    (hgen : gen systemPrompt
        (buildMessages (Sessions.getD sessions (resolveSessionId request.session_id))
          request.query) = .ok ans) :
    (query_documents (some k) gen sessions request).result
      = .ok { answer := ans, sources := [generalKnowledgeSource],
              session_id := resolveSessionId request.session_id } ∧
    (query_documents (some k) gen sessions request).genCalls = 1 ∧
    retrieved_chunks = [] := by
  unfold query_documents
  simp [apiKeyMissing, hk, hgen, retrieved_chunks]

/-- Closed instance of C2_amended at concrete inputs. -/
theorem C2_witness :
    (query_documents (some "k") (fun _ _ => .ok "a") [] ⟨"q", some "sid"⟩).result
      = .ok { answer := "a", sources := [generalKnowledgeSource], session_id := "sid" } ∧
    (query_documents (some "k") (fun _ _ => .ok "a") [] ⟨"q", some "sid"⟩).genCalls = 1 ∧
    retrieved_chunks = [] :=
  C2_amended "k" (fun _ _ => .ok "a") [] ⟨"q", some "sid"⟩ "a" (by decide) rfl

/-! ### Claim C3 -/

/-- C3 as stated is false: with 4 retained exchanges the orchestrator sends
the model only the last 3 as user/assistant pairs (7 messages including the
query), while building from all retained exchanges would give 9; a client
that answers with the number of messages it received observes 7. -/
theorem C3_counterexample :
    (claimMessages
      [⟨"u1", "a1"⟩, ⟨"u2", "a2"⟩, ⟨"u3", "a3"⟩, ⟨"u4", "a4"⟩] "q").length = 9 ∧
    (buildMessages
      [⟨"u1", "a1"⟩, ⟨"u2", "a2"⟩, ⟨"u3", "a3"⟩, ⟨"u4", "a4"⟩] "q").length = 7 ∧
    (query_documents (some "k") (fun _ msgs => .ok (toString msgs.length))
      [("s", [⟨"u1", "a1"⟩, ⟨"u2", "a2"⟩, ⟨"u3", "a3"⟩, ⟨"u4", "a4"⟩])]
      ⟨"q", some "s"⟩).result
      = .ok { answer := "7", sources := [generalKnowledgeSource],
              session_id := "s" } := by
  exact ⟨rfl, rfl, rfl⟩

/-- C3 amended: the orchestrator trims again on its own, building the
generation message list from only the last three retained exchanges: the
built list equals the claim's construction applied to the last min(3, n)
exchanges (each one user/assistant pair, in original order, followed by the
current query), and only when at most three exchanges are retained does it
coincide with the claim's construction over the whole history. -/
theorem C3_amended (history : List Exchange) (query : String) :
    buildMessages history query
      = claimMessages (history.drop (history.length - 3)) query ∧
    (history.drop (history.length - 3)).length = min 3 history.length ∧
    (history.length ≤ 3 → buildMessages history query = claimMessages history query) := by
  refine ⟨rfl, ?_, ?_⟩
  · simp only [List.length_drop]
    omega
  · intro h
    have h0 : history.length - 3 = 0 := Nat.sub_eq_zero_of_le h
    simp [buildMessages, claimMessages, h0]

/-- Closed instance of C3_amended at a two-exchange history. -/
theorem C3_witness :
    buildMessages [⟨"u1", "a1"⟩, ⟨"u2", "a2"⟩] "q"
      = claimMessages [⟨"u1", "a1"⟩, ⟨"u2", "a2"⟩] "q" :=
  (C3_amended [⟨"u1", "a1"⟩, ⟨"u2", "a2"⟩] "q").2.2 (by decide)

/-! ### Claim C4 -/

/-- C4: a generation failure surfaces as a single terminal HTTP 500 for that
request, generation is invoked exactly once (no retry), and the sessions dict
is unchanged — the exchange is appended only after generation succeeds. -/
theorem C4_generation_failure (k : String)
    (gen : String → List Message → Except String String)
    (sessions : Sessions) (request : QueryRequest) (e : String)
    (hk : k ≠ "")
    (hgen : gen systemPrompt
        (buildMessages (Sessions.getD sessions (resolveSessionId request.session_id))
          request.query) = .error e) :
    query_documents (some k) gen sessions request
      = { result := .error (500, e), sessions := sessions, genCalls := 1 } := by
  unfold query_documents
  simp [apiKeyMissing, hk, hgen]

/-- Closed instance of C4_generation_failure at concrete inputs. -/
theorem C4_witness :
    query_documents (some "k") (fun _ _ => .error "boom")
        [("s", [⟨"u", "a"⟩])] ⟨"q", some "s"⟩
      = { result := .error (500, "boom"),
          sessions := [("s", [⟨"u", "a"⟩])], genCalls := 1 } :=
  C4_generation_failure "k" (fun _ _ => .error "boom")
    [("s", [⟨"u", "a"⟩])] ⟨"q", some "s"⟩ "boom" (by decide) rfl

/-! ### Claim C5 -/

/-- C5 as stated is false: a request without a session identifier receives
the fixed identifier "default", not a fresh opaque value — a second no-id
request returns the same identifier even though the session "default" is
already live after the first. -/
theorem C5_counterexample :
    (query_documents (some "k") (fun _ _ => .ok "a1") [] ⟨"q1", none⟩).result
      = .ok { answer := "a1", sources := [generalKnowledgeSource],
              session_id := "default" } ∧
    Sessions.hasKey
      (query_documents (some "k") (fun _ _ => .ok "a1") [] ⟨"q1", none⟩).sessions
      "default" = true ∧
    (query_documents (some "k") (fun _ _ => .ok "a2")
      (query_documents (some "k") (fun _ _ => .ok "a1") [] ⟨"q1", none⟩).sessions
      ⟨"q2", none⟩).result
      = .ok { answer := "a2", sources := [generalKnowledgeSource],
              session_id := "default" } := by
  exact ⟨rfl, rfl, rfl⟩

/-- C5 amended: a provided non-empty session identifier is echoed unchanged;
a missing or empty-string identifier resolves to the fixed shared identifier
"default" (no fresh allocation). -/
theorem C5_amended (k : String) (gen : String → List Message → Except String String)
    (sessions : Sessions) (q1 q2 q3 sid ans : String)
    (hk : k ≠ "") (hsid : sid ≠ "")
    (hgen : ∀ sys msgs, gen sys msgs = .ok ans) :
    (query_documents (some k) gen sessions ⟨q1, some sid⟩).result
      = .ok { answer := ans, sources := [generalKnowledgeSource], session_id := sid } ∧
    (query_documents (some k) gen sessions ⟨q2, none⟩).result
      = .ok { answer := ans, sources := [generalKnowledgeSource],
              session_id := "default" } ∧
    (query_documents (some k) gen sessions ⟨q3, some ""⟩).result
      = .ok { answer := ans, sources := [generalKnowledgeSource],
              session_id := "default" } := by
  unfold query_documents
  simp [apiKeyMissing, resolveSessionId, hk, hsid, hgen]

/-- Closed instance of C5_amended at concrete inputs. -/
theorem C5_witness :
    (query_documents (some "k") (fun _ _ => .ok "a") [] ⟨"q1", some "sid"⟩).result
      = .ok { answer := "a", sources := [generalKnowledgeSource], session_id := "sid" } ∧
    (query_documents (some "k") (fun _ _ => .ok "a") [] ⟨"q2", none⟩).result
      = .ok { answer := "a", sources := [generalKnowledgeSource],
              session_id := "default" } ∧
    (query_documents (some "k") (fun _ _ => .ok "a") [] ⟨"q3", some ""⟩).result
      = .ok { answer := "a", sources := [generalKnowledgeSource],
              session_id := "default" } :=
  C5_amended "k" (fun _ _ => .ok "a") [] "q1" "q2" "q3" "sid" "a"
    (by decide) (by decide) (fun _ _ => rfl)

/-! ### Claim C6 -/

/-- C6 as stated is false: a successful query returns a non-empty fixed
source label even though no chunk was retrieved, so the returned label is not
of the form course_title - lesson_title derived from a retrieved chunk. -/
theorem C6_counterexample :
    (query_documents (some "k") (fun _ _ => .ok "ans") [] ⟨"what", some "x"⟩).result
      = .ok { answer := "ans", sources := [generalKnowledgeSource],
              session_id := "x" } ∧
    retrieved_chunks.map chunkLabel = [] ∧
    ¬ generalKnowledgeSource ∈ retrieved_chunks.map chunkLabel := by
  exact ⟨rfl, rfl, by decide⟩

/-- C6 amended: every successful answer request returns the fixed singleton
source list holding the placeholder label — duplicate-free by construction
but independent of retrieval, since the pipeline retrieves no chunks. -/
theorem C6_amended (k : String) (gen : String → List Message → Except String String)
    (sessions : Sessions) (request : QueryRequest) (ans : String)
    (hk : k ≠ "")
    (hgen : gen systemPrompt
        (buildMessages (Sessions.getD sessions (resolveSessionId request.session_id))
          request.query) = .ok ans) :
    (query_documents (some k) gen sessions request).result
      = .ok { answer := ans, sources := [generalKnowledgeSource],
              session_id := resolveSessionId request.session_id } ∧
    List.Nodup [generalKnowledgeSource] ∧
    retrieved_chunks.map chunkLabel = [] := by
  refine ⟨?_, by simp, rfl⟩
  unfold query_documents
  simp [apiKeyMissing, hk, hgen]

/-- Closed instance of C6_amended at concrete inputs. -/
theorem C6_witness :
    (query_documents (some "k") (fun _ _ => .ok "b") [] ⟨"w", some "y"⟩).result
      = .ok { answer := "b", sources := [generalKnowledgeSource], session_id := "y" } ∧
    List.Nodup [generalKnowledgeSource] ∧
    retrieved_chunks.map chunkLabel = [] :=
  C6_amended "k" (fun _ _ => .ok "b") [] ⟨"w", some "y"⟩ "b" (by decide) rfl

/-! ### Claim C8 -/

/-- C8: an empty query string is accepted and processed through the normal
pipeline: with the API key set and a succeeding client, the request yields a
normal non-error response and the empty-query exchange is appended to the
session history like any other. -/
theorem C8_empty_query_accepted (k : String)
    (gen : String → List Message → Except String String)
    (sessions : Sessions) (sid : Option String) (ans : String)
    (hk : k ≠ "") (hgen : ∀ sys msgs, gen sys msgs = .ok ans) :
    (query_documents (some k) gen sessions ⟨"", sid⟩).result
      = .ok { answer := ans, sources := [generalKnowledgeSource],
              session_id := resolveSessionId sid } ∧
    Sessions.getD (query_documents (some k) gen sessions ⟨"", sid⟩).sessions
        (resolveSessionId sid)
      = Sessions.getD sessions (resolveSessionId sid) ++ [⟨"", ans⟩] := by
  unfold query_documents
  simp [apiKeyMissing, hk, hgen, addExchange_getD]

/-- Closed instance of C8_empty_query_accepted at concrete inputs. -/
theorem C8_witness :
    (query_documents (some "k") (fun _ _ => .ok "a") [] ⟨"", none⟩).result
      = .ok { answer := "a", sources := [generalKnowledgeSource],
              session_id := "default" } ∧
    Sessions.getD (query_documents (some "k") (fun _ _ => .ok "a") [] ⟨"", none⟩).sessions
        "default"
      = Sessions.getD ([] : Sessions) "default" ++ [⟨"", "a"⟩] :=
  C8_empty_query_accepted "k" (fun _ _ => .ok "a") [] none "a"
    (by decide) (fun _ _ => rfl)

/-! ### Claim C9 -/

/-- C9: for a session id with no stored entry, the history read yields the
empty list (not an error), the model receives only the current query, and the
request completes normally. -/
theorem C9_unknown_session (k : String)
    (gen : String → List Message → Except String String)
    (sessions : Sessions) (sid q ans : String)
    (hk : k ≠ "") (hsid : sid ≠ "")
    (hunknown : Sessions.hasKey sessions sid = false)
    (hgen : ∀ sys msgs, gen sys msgs = .ok ans) :
    Sessions.getD sessions sid = [] ∧
    buildMessages (Sessions.getD sessions sid) q = [⟨"user", q⟩] ∧
    (query_documents (some k) gen sessions ⟨q, some sid⟩).result
      = .ok { answer := ans, sources := [generalKnowledgeSource],
              session_id := sid } := by
  have hnil := Sessions.getD_eq_nil_of_not_hasKey sessions sid hunknown
  refine ⟨hnil, ?_, ?_⟩
  · simp [buildMessages, hnil, exchangePair]
  · unfold query_documents
    simp [apiKeyMissing, resolveSessionId, hk, hsid, hgen]

/-- Closed instance of C9_unknown_session at concrete inputs. -/
theorem C9_witness :
    Sessions.getD [("other", [⟨"u", "a"⟩])] "fresh" = [] ∧
    buildMessages (Sessions.getD [("other", [⟨"u", "a"⟩])] "fresh") "q"
      = [⟨"user", "q"⟩] ∧
    (query_documents (some "k") (fun _ _ => .ok "ans")
      [("other", [⟨"u", "a"⟩])] ⟨"q", some "fresh"⟩).result
      = .ok { answer := "ans", sources := [generalKnowledgeSource],
              session_id := "fresh" } :=
  C9_unknown_session "k" (fun _ _ => .ok "ans") [("other", [⟨"u", "a"⟩])]
    "fresh" "q" "ans" (by decide) (by decide) (by decide) (fun _ _ => rfl)
